import Mathlib

/-!
# Verification of the agc-rs native-dependency build orchestrator and FFI wrapper

This file gives a shallow embedding of the build orchestration logic in
`build.rs` (toolchain location, dependency resolution, native build stage,
link-plan synthesis) and of the safe-wrapper methods in `src/lib.rs`
(`AGCFile::open`, `AGCFile::get_full_contig`), and proves the specified
properties about them.

External effects are modelled explicitly:
* the filesystem is a predicate `String → Bool` (does a path exist);
* each external process invocation (`brew --prefix gcc@V`,
  `gcc -print-libgcc-file-name`, …) is modelled by a `ProbeOut` record
  carrying whether the process could be launched (`Ok` from
  `Command::output()`), whether its exit status was a success, and its
  (lossy-decoded) standard output;
* the FFI functions reached through the `cxx` bridge are uninterpreted
  oracle fields of a structure.
-/

namespace AgcRs

instance exceptDecEq {ε α : Type} [DecidableEq ε] [DecidableEq α] :
    DecidableEq (Except ε α) := fun a b =>
  match a, b with
  | .error x, .error y =>
    if h : x = y then isTrue (by rw [h])
    else isFalse (fun hc => h (Except.error.inj hc))
  | .error _, .ok _ => isFalse (fun hc => Except.noConfusion hc)
  | .ok _, .error _ => isFalse (fun hc => Except.noConfusion hc)
  | .ok x, .ok y =>
    if h : x = y then isTrue (by rw [h])
    else isFalse (fun hc => h (Except.ok.inj hc))

/-- Outcome of running one external command with `Command::output()`:
`launched` models the `Result` being `Ok` (the process could be spawned),
`success` models `status.success()`, and `stdout` the lossy-decoded
standard output. -/
structure ProbeOut where
  launched : Bool
  success : Bool
  stdout : String
  deriving DecidableEq, Repr

/-- Rust's `str::trim`: drop whitespace from both ends of the string.
(An executable model used in place of `String.trim`, whose well-founded
recursion does not reduce; this one is structural.) -/
def rustTrim (s : String) : String :=
  ⟨((s.data.dropWhile Char.isWhitespace).reverse.dropWhile Char.isWhitespace).reverse⟩

/-- A probe outcome is accepted by the locator loop in `detect_homebrew_gcc`
iff the process launched, exited successfully, and its trimmed stdout (the
Homebrew prefix) is non-empty. -/
def probeOk (p : ProbeOut) : Bool :=
  p.launched && (p.success && !(rustTrim p.stdout).isEmpty)

/-- The fixed candidate list iterated by `detect_homebrew_gcc`:
`for ver in ["13", "12", "11"]`. -/
def gccCandidates : List String := ["13", "12", "11"]

/-- The loop body of `detect_homebrew_gcc` (build.rs lines 16-30) over an
explicit candidate list, instrumented: the second component records, in
order, the candidates for which a `brew --prefix gcc@ver` probe was run.
Mirrors the source's nested tests: `if let Ok(out)`, then
`out.status.success()`, then trim the stdout and test non-emptiness;
on acceptance the function returns immediately (no further probes). -/
def detectGo (probe : String → ProbeOut) :
    List String → Option (String × String) × List String
  | [] => (none, [])
  | ver :: rest =>
    let out := probe ver
    if out.launched then
      if out.success then
        let pfx := rustTrim out.stdout
        if !pfx.isEmpty then
          (some (pfx, ver), [ver])
        else
          let r := detectGo probe rest
          (r.1, ver :: r.2)
      else
        let r := detectGo probe rest
        (r.1, ver :: r.2)
    else
      let r := detectGo probe rest
      (r.1, ver :: r.2)

/-- `detect_homebrew_gcc` together with the ordered list of candidates that
were actually probed. -/
def detect_homebrew_gcc_trace (probe : String → ProbeOut) :
    Option (String × String) × List String :=
  detectGo probe gccCandidates

/-- `detect_homebrew_gcc` from build.rs: locate a Homebrew GCC 13/12/11 and
return `(prefix, version)` of the first available candidate, or `none`. -/
def detect_homebrew_gcc (probe : String → ProbeOut) : Option (String × String) :=
  (detectGo probe gccCandidates).1

theorem detectGo_accept (probe : String → ProbeOut) (ver : String)
    (rest : List String) (h : probeOk (probe ver) = true) :
    detectGo probe (ver :: rest) = (some (rustTrim (probe ver).stdout, ver), [ver]) := by
  simp only [probeOk, Bool.and_eq_true] at h
  simp [detectGo, h.1, h.2.1, h.2.2]

theorem detectGo_skip (probe : String → ProbeOut) (ver : String)
    (rest : List String) (h : probeOk (probe ver) = false) :
    detectGo probe (ver :: rest) =
      ((detectGo probe rest).1, ver :: (detectGo probe rest).2) := by
  simp only [probeOk, Bool.and_eq_false_iff] at h
  rcases h with h | h | h
  · simp [detectGo, h]
  · simp [detectGo, h]
  · simp only [Bool.not_eq_false'] at h
    simp [detectGo, h]

theorem detectGo_none_trace (probe : String → ProbeOut) :
    ∀ l : List String, (detectGo probe l).1 = none → (detectGo probe l).2 = l := by
  intro l
  induction l with
  | nil => intro _; rfl
  | cons ver rest ih =>
    intro hnone
    by_cases h : probeOk (probe ver) = true
    · rw [detectGo_accept probe ver rest h] at hnone
      simp at hnone
    · rw [Bool.not_eq_true] at h
      rw [detectGo_skip probe ver rest h] at hnone ⊢
      simp only at hnone ⊢
      rw [ih hnone]

theorem detectGo_launchFail_as_notFound (probe : String → ProbeOut) (v : String)
    (hv : (probe v).launched = false) :
    ∀ l : List String,
      detectGo probe l =
        detectGo (fun u => if u = v then ⟨true, false, ""⟩ else probe u) l := by
  intro l
  induction l with
  | nil => rfl
  | cons ver rest ih =>
    by_cases hev : ver = v
    · subst hev
      have h1 : probeOk (probe ver) = false := by
        simp [probeOk, hv]
      have h2 : probeOk ((fun u => if u = ver then (⟨true, false, ""⟩ : ProbeOut)
          else probe u) ver) = false := by
        simp [probeOk]
      rw [detectGo_skip probe ver rest h1,
        detectGo_skip _ ver rest h2, ih]
    · by_cases h : probeOk (probe ver) = true
      · have h' : probeOk ((fun u => if u = v then (⟨true, false, ""⟩ : ProbeOut)
            else probe u) ver) = true := by
          simp only [if_neg hev]
          exact h
        rw [detectGo_accept probe ver rest h, detectGo_accept _ ver rest h']
        simp [hev]
      · rw [Bool.not_eq_true] at h
        have h' : probeOk ((fun u => if u = v then (⟨true, false, ""⟩ : ProbeOut)
            else probe u) ver) = false := by
          simp only [if_neg hev]
          exact h
        rw [detectGo_skip probe ver rest h, detectGo_skip _ ver rest h', ih]

/-- C2: the Toolchain Locator iterates the fixed descending candidate list
`["13", "12", "11"]` in that order and returns the first candidate whose
probe succeeds (probe success = the package-query call launches, exits
successfully and prints a non-empty prefix).  For any probe function under
which only `"12"` is available, it resolves to `"12"`, the probe trace is
`["13", "12"]` (so `"13"` is probed before `"12"` and nothing is probed
after the accepted candidate). -/
theorem toolchain_locator_resolves_highest_available (probe : String → ProbeOut)
    (h13 : probeOk (probe "13") = false)
    (h12 : probeOk (probe "12") = true)
    (_h11 : probeOk (probe "11") = false) :
    detect_homebrew_gcc_trace probe =
      (some (rustTrim (probe "12").stdout, "12"), ["13", "12"]) ∧
    gccCandidates = ["13", "12", "11"] := by
  refine ⟨?_, rfl⟩
  unfold detect_homebrew_gcc_trace gccCandidates
  rw [detectGo_skip probe "13" _ h13, detectGo_accept probe "12" _ h12]

/-- A concrete probe function under which only candidate `"12"` is
available. -/
def onlyTwelve : String → ProbeOut := fun v =>
  if v = "12" then ⟨true, true, "/opt/homebrew/opt/gcc@12"⟩
  else ⟨true, false, ""⟩

theorem toolchain_locator_resolves_highest_available_witness :
    (probeOk (onlyTwelve "13") = false ∧ probeOk (onlyTwelve "12") = true ∧
      probeOk (onlyTwelve "11") = false) ∧
    (detect_homebrew_gcc_trace onlyTwelve =
        (some (rustTrim (onlyTwelve "12").stdout, "12"), ["13", "12"]) ∧
      gccCandidates = ["13", "12", "11"]) :=
  ⟨⟨by decide, by decide, by decide⟩,
    toolchain_locator_resolves_highest_available onlyTwelve
      (by decide) (by decide) (by decide)⟩

/-- C8: a probe process that fails to launch (the package-query tool itself
being absent, `Command::output()` returning `Err`) is treated exactly like a
probe that reports the candidate unavailable: the locator's result and probe
trace are unchanged if a launch failure is replaced by a launched-but-failed
probe, it never crashes, and it returns `none` only after every candidate in
the list has been probed. -/
theorem toolchain_probe_launch_failure_tolerated :
    (∀ probe : String → ProbeOut, detect_homebrew_gcc probe = none →
      (detect_homebrew_gcc_trace probe).2 = gccCandidates) ∧
    (∀ (probe : String → ProbeOut) (v : String), (probe v).launched = false →
      detect_homebrew_gcc_trace probe =
        detect_homebrew_gcc_trace
          (fun u => if u = v then ⟨true, false, ""⟩ else probe u)) := by
  constructor
  · intro probe h
    exact detectGo_none_trace probe gccCandidates h
  · intro probe v hv
    unfold detect_homebrew_gcc_trace
    exact detectGo_launchFail_as_notFound probe v hv gccCandidates

/-- A probe function modelling `brew` being absent altogether: every probe
fails to launch. -/
def brewAbsent : String → ProbeOut := fun _ => ⟨false, false, ""⟩

theorem toolchain_probe_launch_failure_tolerated_witness :
    ((detect_homebrew_gcc_trace brewAbsent).2 = gccCandidates) ∧
    (detect_homebrew_gcc_trace brewAbsent =
      detect_homebrew_gcc_trace
        (fun u => if u = "13" then ⟨true, false, ""⟩ else brewAbsent u)) :=
  ⟨toolchain_probe_launch_failure_tolerated.1 brewAbsent (by decide),
    toolchain_probe_launch_failure_tolerated.2 brewAbsent "13" (by decide)⟩

/-- The observable external state and subprocess behaviour a run of the
build script (on macOS) can depend on.
* `agcDirOverride` — the `AGC_DIR` environment variable;
* `manifestDir` — `CARGO_MANIFEST_DIR`;
* `fileExists` — the filesystem existence predicate used by `Path::exists`;
* `brewProbe` — outcome of `brew --prefix gcc@ver` per candidate;
* `gmakeLaunches` — whether `gmake --version` can be spawned (`output().is_ok()`);
* `makeLaunches` / `makeSucceeds` — whether the native `make` child can be
  spawned and whether it exits successfully;
* `aarch64` — `cfg!(target_arch = "aarch64")`;
* `printLibgccFileName` — outcome of `gcc-VER -print-libgcc-file-name`;
* `printFileNameGccEh` — outcome of `gcc-VER -print-file-name=libgcc_eh.a`. -/
structure World where
  agcDirOverride : Option String
  manifestDir : String
  fileExists : String → Bool
  brewProbe : String → ProbeOut
  gmakeLaunches : Bool
  makeLaunches : Bool
  makeSucceeds : Bool
  aarch64 : Bool
  printLibgccFileName : ProbeOut
  printFileNameGccEh : ProbeOut

/-- The dependency-source resolution of build.rs (lines 37-41): `AGC_DIR` if
set, else `CARGO_MANIFEST_DIR` joined with `"agc"`.  It consults nothing
else (in particular, not the filesystem). -/
def agcRoot (w : World) : String :=
  match w.agcDirOverride with
  | some p => p
  | none => w.manifestDir ++ "/agc"

/-- The expected build artifact: `bin/libagc.a` under the resolved root. -/
def agcArtifactPath (w : World) : String := agcRoot w ++ "/bin/libagc.a"

/-- One link directive emitted by the build script on stdout.
`searchPath d` models `cargo:rustc-link-search=native=d`;
`staticLib n` models `cargo:rustc-link-lib=static=n`;
`dynamicLib n` models `cargo:rustc-link-lib=dylib=n`;
`lib n` models a kind-less `cargo:rustc-link-lib=n`;
`forceLoadArchive p` models `cargo:rustc-link-arg=-Wl,-force_load,p`. -/
inductive Directive where
  | searchPath (dir : String)
  | staticLib (nm : String)
  | dynamicLib (nm : String)
  | lib (nm : String)
  | forceLoadArchive (path : String)
  deriving DecidableEq, Repr

/-- A directive emitted under a boolean guard (an `if … { println!(…) }`). -/
def guarded (g : Bool) (d : Directive) : List Directive := if g then [d] else []

theorem mem_guarded {g : Bool} {d x : Directive} :
    x ∈ guarded g d ↔ g = true ∧ x = d := by
  cases g <;> simp [guarded]

/-- `{prefix}/lib/gcc/{ver}`, the resolved toolchain's runtime library
directory. -/
def gccLibDir (pfx ver : String) : String := pfx ++ "/lib/gcc/" ++ ver

/-- The trimmed stdout of `gcc -print-libgcc-file-name`: the path at which
the toolchain reports its static `libgcc`. -/
def libgccReported (w : World) : String := rustTrim w.printLibgccFileName.stdout

/-- The trimmed stdout of `gcc -print-file-name=libgcc_eh.a`. -/
def libgccEhReported (w : World) : String := rustTrim w.printFileNameGccEh.stdout

/-- Section 3 of build.rs (macOS link configuration), the part emitted
before the final `dylib=gcc_s.1` directive, for resolved toolchain
`(pfx, ver)`: force-load `libgcc` when the toolchain-reported path exists,
add the two GCC library search paths, force-load `libstdc++.a` and
`libatomic.a` when present, and on aarch64 force-load `libgcc_eh.a` when
the toolchain resolves it to an existing file. -/
def sec3Front (w : World) (pfx ver : String) : List Directive :=
  guarded (w.printLibgccFileName.launched && w.fileExists (libgccReported w))
    (.forceLoadArchive (libgccReported w))
  ++ [.searchPath (gccLibDir pfx ver), .searchPath (pfx ++ "/lib")]
  ++ guarded (w.fileExists (gccLibDir pfx ver ++ "/libstdc++.a"))
    (.forceLoadArchive (gccLibDir pfx ver ++ "/libstdc++.a"))
  ++ guarded (w.fileExists (gccLibDir pfx ver ++ "/libatomic.a"))
    (.forceLoadArchive (gccLibDir pfx ver ++ "/libatomic.a"))
  ++ guarded (w.aarch64 && (w.printFileNameGccEh.launched &&
      (w.fileExists (libgccEhReported w) && !(libgccEhReported w == "libgcc_eh.a"))))
    (.forceLoadArchive (libgccEhReported w))

/-- Section 3 of build.rs: empty when no Homebrew GCC was detected,
otherwise the force-load/search-path block followed by the unconditional
`dylib=gcc_s.1` directive. -/
def sec3Directives (w : World) : List Directive :=
  match detect_homebrew_gcc w.brewProbe with
  | none => []
  | some (pfx, ver) => sec3Front w pfx ver ++ [.dynamicLib "gcc_s.1"]

/-- `{agc_root}/3rd_party/zstd/lib/libzstd.a`. -/
def zstdStaticPath (w : World) : String := agcRoot w ++ "/3rd_party/zstd/lib/libzstd.a"

/-- Section 4 of build.rs on macOS: AGC and zstd search paths and static
libraries, the Homebrew/system search-path hints, the guarded zstd
force-load, and the common system libraries. -/
def sec4Directives (w : World) : List Directive :=
  [.searchPath (agcRoot w ++ "/bin"), .staticLib "agc",
   .searchPath (agcRoot w ++ "/3rd_party/zstd/lib"), .staticLib "zstd",
   .searchPath "/opt/homebrew/lib", .searchPath "/usr/local/lib"]
  ++ guarded (w.fileExists (zstdStaticPath w)) (.forceLoadArchive (zstdStaticPath w))
  ++ [.lib "z", .lib "pthread"]

/-- The full ordered link plan emitted on macOS (sections 3 and 4 of
build.rs, in emission order). -/
def macLinkDirectives (w : World) : List Directive :=
  sec3Directives w ++ sec4Directives w

/-- The full ordered link plan emitted on non-macOS targets (section 4 of
build.rs with the `#[cfg(not(target_os = "macos"))]` branches). -/
def nonMacLinkDirectives (w : World) : List Directive :=
  [.searchPath (agcRoot w ++ "/bin"), .staticLib "agc",
   .searchPath (agcRoot w ++ "/3rd_party/zstd/lib"), .staticLib "zstd",
   .lib "z", .lib "pthread", .lib "stdc++"]

/-- The paths at which the alternate toolchain's runtime archives (libgcc,
libstdc++.a, libatomic.a, libgcc_eh.a) live, as section 3 computes them;
empty when no toolchain was resolved. -/
def runtimeForceLoadPaths (w : World) : List String :=
  match detect_homebrew_gcc w.brewProbe with
  | none => []
  | some (pfx, ver) =>
    [libgccReported w, gccLibDir pfx ver ++ "/libstdc++.a",
     gccLibDir pfx ver ++ "/libatomic.a", libgccEhReported w]

/-- One external-process invocation made by the Native Builder stage. -/
inductive ProcCall where
  | gmakeVersionProbe
  | brewPrefixProbe (ver : String)
  | makeRun (cmd : String) (cwd : String) (envOverrides : List (String × String))
  deriving DecidableEq, Repr

/-- The environment variables the Native Builder explicitly sets on the
`make` child via `Command::env` (build.rs lines 61-67): CC, CXX, PLATFORM
(aarch64 only), LDFLAGS. -/
def makeEnvOverrides (ver : String) (aarch64 : Bool) : List (String × String) :=
  [("CC", "gcc-" ++ ver), ("CXX", "g++-" ++ ver)]
  ++ (if aarch64 then [("PLATFORM", "arm8")] else [])
  ++ [("LDFLAGS", "-static-libgcc -static-libstdc++")]

/-- The environment the `make` child process actually receives.  Rust's
`std::process::Command` inherits the parent's full environment by default
(there is no `env_clear()` call in build.rs); each `.env(k, v)` call only
inserts or overrides the single key `k`.  So the child environment is the
ambient environment overridden at the explicitly set keys. -/
def childEnv (ambient : String → Option String) (ver : String) (aarch64 : Bool) :
    String → Option String :=
  fun k => match (makeEnvOverrides ver aarch64).lookup k with
    | some v => some v
    | none => ambient k

/-- The panic message of build.rs line 70. -/
def gccRequiredMsg : String :=
  "Homebrew GCC 11-13 is required on macOS. Install with: brew install gcc@13"

/-- The `make` command selection on macOS: `gmake` when `gmake --version`
can be spawned, else `make`. -/
def makeCmd (w : World) : String := if w.gmakeLaunches then "gmake" else "make"

/-- The Native Builder stage (build.rs lines 42-76, macOS): skipped entirely
when `bin/libagc.a` already exists under the resolved root; otherwise it
probes for gmake, locates a Homebrew GCC (panicking with `gccRequiredMsg`
on exhaustion), and runs `make` in the AGC root with the explicit
environment overrides, panicking if the child cannot be spawned or exits
unsuccessfully.  Returns the ordered process invocations made and the
outcome (`.error` models a panic). -/
def nativeBuilderStage (w : World) : List ProcCall × Except String Unit :=
  if w.fileExists (agcArtifactPath w) then ([], .ok ())
  else
    let probes := (detect_homebrew_gcc_trace w.brewProbe).2.map ProcCall.brewPrefixProbe
    match detect_homebrew_gcc w.brewProbe with
    | none => (ProcCall.gmakeVersionProbe :: probes, .error gccRequiredMsg)
    | some (_, ver) =>
      let calls := ProcCall.gmakeVersionProbe :: probes ++
        [ProcCall.makeRun (makeCmd w) (agcRoot w) (makeEnvOverrides ver w.aarch64)]
      if !w.makeLaunches then (calls, .error "failed to execute make")
      else if !w.makeSucceeds then (calls, .error "AGC build failed")
      else (calls, .ok ())

/-- The C++ compiler the bridge build uses on macOS (build.rs section 2):
the resolved Homebrew g++ when one was detected, `none` meaning the
platform-default compiler is used. -/
def bridgeCompiler (w : World) : Option String :=
  (detect_homebrew_gcc w.brewProbe).map (fun pv => pv.1 ++ "/bin/g++-" ++ pv.2)

/-- The whole macOS build-script run: the Native Builder stage first (its
panics abort everything), then the bridge compile and link-plan emission;
on success returns the bridge compiler choice and the emitted link plan. -/
def macOrchestration (w : World) : Except String (Option String × List Directive) :=
  match (nativeBuilderStage w).2 with
  | .error e => .error e
  | .ok _ => .ok (bridgeCompiler w, macLinkDirectives w)

/-- Every directive of `l` satisfying `P` occurs at a strictly smaller index
than every directive of `l` satisfying `Q`. -/
def precedesAll (P Q : Directive → Prop) (l : List Directive) : Prop :=
  ∀ (i j : Nat) (hi : i < l.length) (hj : j < l.length),
    P (l.get ⟨i, hi⟩) → Q (l.get ⟨j, hj⟩) → i < j

theorem precedesAll_of_no_P {P Q : Directive → Prop} {l : List Directive}
    (h : ∀ x ∈ l, ¬ P x) : precedesAll P Q l := by
  intro i j hi hj hPi _
  exact absurd hPi (h _ (List.get_mem l i hi))

theorem precedesAll_append {P Q : Directive → Prop} {l₁ l₂ : List Directive}
    (hQ : ∀ x ∈ l₁, ¬ Q x) (hP : ∀ x ∈ l₂, ¬ P x) :
    precedesAll P Q (l₁ ++ l₂) := by
  intro i j hi hj hPi hQj
  rw [List.get_eq_getElem] at hPi hQj
  have hij : i < l₁.length := by
    by_contra hge
    push_neg at hge
    rw [List.getElem_append_right hge] at hPi
    exact hP _ (List.getElem_mem _) hPi
  have hjge : l₁.length ≤ j := by
    by_contra hlt
    push_neg at hlt
    rw [List.getElem_append_left hlt] at hQj
    exact hQ _ (List.getElem_mem _) hQj
  exact Nat.lt_of_lt_of_le hij hjge

/-- C3: the Native Builder stage is idempotent via a pure existence check:
whenever `bin/libagc.a` already exists under the resolved AGC root, the
stage performs zero process invocations (no gmake probe, no brew probe, no
make) and completes successfully, for every state of every other part of
the world — in particular no content of the artifact is ever examined. -/
theorem native_builder_idempotent (w : World)
    (h : w.fileExists (agcArtifactPath w) = true) :
    nativeBuilderStage w = ([], .ok ()) := by
  simp [nativeBuilderStage, h]

/-- A world in which the expected artifact already exists (and everything
needed for a build is also available, none of which may be touched). -/
def builtWorld : World where
  agcDirOverride := none
  manifestDir := "/repo"
  fileExists := fun p => p == "/repo/agc/bin/libagc.a"
  brewProbe := fun _ => ⟨true, true, "/opt/homebrew/opt/gcc@13"⟩
  gmakeLaunches := true
  makeLaunches := true
  makeSucceeds := true
  aarch64 := true
  printLibgccFileName := ⟨true, true, "/opt/homebrew/opt/gcc@13/lib/gcc/13/libgcc.a"⟩
  printFileNameGccEh := ⟨true, true, "/opt/homebrew/opt/gcc@13/lib/gcc/13/libgcc_eh.a"⟩

theorem native_builder_idempotent_witness :
    builtWorld.fileExists (agcArtifactPath builtWorld) = true ∧
    nativeBuilderStage builtWorld = ([], .ok ()) :=
  ⟨by decide, native_builder_idempotent builtWorld (by decide)⟩

/-- An ambient process environment with nothing set. -/
def ambientA : String → Option String := fun _ => none

/-- An ambient process environment that differs from `ambientA` only at the
non-allow-listed variable SECRET_TOKEN. -/
def ambientB : String → Option String :=
  fun k => if k = "SECRET_TOKEN" then some "hunter2" else none

/-- C4 counterexample: two ambient environments that agree on every
allow-listed variable (CC, CXX, PLATFORM, LDFLAGS) but differ at
SECRET_TOKEN produce different child environments for the `make`
invocation, because `std::process::Command` inherits the full parent
environment and build.rs never calls `env_clear()`. -/
theorem native_builder_env_not_isolated_cex :
    ambientA "CC" = ambientB "CC" ∧ ambientA "CXX" = ambientB "CXX" ∧
    ambientA "PLATFORM" = ambientB "PLATFORM" ∧
    ambientA "LDFLAGS" = ambientB "LDFLAGS" ∧
    childEnv ambientA "13" true "SECRET_TOKEN" ≠
      childEnv ambientB "13" true "SECRET_TOKEN" := by
  refine ⟨by decide, by decide, by decide, by decide, by decide⟩

/-- C4 (amended): the `make` child receives the full ambient environment
with only the explicit overrides CC, CXX, PLATFORM (aarch64 only) and
LDFLAGS applied on top: every variable outside the override list passes
through from the ambient environment unchanged, and the override keys get
the fixed toolchain values regardless of the ambient environment. -/
theorem native_builder_env_passthrough (ambient : String → Option String)
    (ver : String) (a : Bool) (k : String)
    (hk : (makeEnvOverrides ver a).lookup k = none) :
    childEnv ambient ver a k = ambient k ∧
    childEnv ambient ver a "CC" = some ("gcc-" ++ ver) ∧
    childEnv ambient ver a "CXX" = some ("g++-" ++ ver) ∧
    childEnv ambient ver a "LDFLAGS" = some "-static-libgcc -static-libstdc++" ∧
    (a = true → childEnv ambient ver a "PLATFORM" = some "arm8") := by
  refine ⟨by simp [childEnv, hk], ?_, ?_, ?_, ?_⟩ <;>
    cases a <;> simp [childEnv, makeEnvOverrides, List.lookup]

theorem native_builder_env_passthrough_witness :
    (makeEnvOverrides "13" true).lookup "HOME" = none ∧
    (childEnv ambientB "13" true "HOME" = ambientB "HOME" ∧
      childEnv ambientB "13" true "CC" = some ("gcc-" ++ "13") ∧
      childEnv ambientB "13" true "CXX" = some ("g++-" ++ "13") ∧
      childEnv ambientB "13" true "LDFLAGS" =
        some "-static-libgcc -static-libstdc++" ∧
      (true = true → childEnv ambientB "13" true "PLATFORM" = some "arm8")) :=
  ⟨by decide, native_builder_env_passthrough ambientB "13" true "HOME" (by decide)⟩

/-- C5 (amended): when a native build is actually required (the artifact is
absent) and the toolchain candidate list is exhausted, the orchestration
aborts fatally with the panic message, which names the attempted version
range 11-13 and contains the installation hint; but see the counterexample:
when the artifact already exists, exhaustion is tolerated silently. -/
theorem orchestration_fatal_on_exhaustion_when_building (w : World)
    (hmiss : w.fileExists (agcArtifactPath w) = false)
    (hnone : detect_homebrew_gcc w.brewProbe = none) :
    macOrchestration w = .error gccRequiredMsg ∧
    List.IsInfix ("11-13".data) gccRequiredMsg.data ∧
    List.IsInfix ("brew install gcc@13".data) gccRequiredMsg.data := by
  refine ⟨?_, by decide, by decide⟩
  simp [macOrchestration, nativeBuilderStage, hmiss, hnone]

/-- A world in which the artifact is absent and every brew probe reports
the candidate unavailable. -/
def exhaustedWorld : World where
  agcDirOverride := none
  manifestDir := "/repo"
  fileExists := fun _ => false
  brewProbe := fun _ => ⟨true, false, ""⟩
  gmakeLaunches := true
  makeLaunches := true
  makeSucceeds := true
  aarch64 := true
  printLibgccFileName := ⟨false, false, ""⟩
  printFileNameGccEh := ⟨false, false, ""⟩

theorem orchestration_fatal_on_exhaustion_when_building_witness :
    (exhaustedWorld.fileExists (agcArtifactPath exhaustedWorld) = false ∧
      detect_homebrew_gcc exhaustedWorld.brewProbe = none) ∧
    (macOrchestration exhaustedWorld = .error gccRequiredMsg ∧
      List.IsInfix ("11-13".data) gccRequiredMsg.data ∧
      List.IsInfix ("brew install gcc@13".data) gccRequiredMsg.data) :=
  ⟨⟨by decide, by decide⟩,
    orchestration_fatal_on_exhaustion_when_building exhaustedWorld
      (by decide) (by decide)⟩

/-- A world in which the artifact already exists but no Homebrew GCC is
available (every probe reports the candidate unavailable). -/
def degradedWorld : World where
  agcDirOverride := none
  manifestDir := "/repo"
  fileExists := fun p => p == "/repo/agc/bin/libagc.a"
  brewProbe := fun _ => ⟨true, false, ""⟩
  gmakeLaunches := true
  makeLaunches := true
  makeSucceeds := true
  aarch64 := true
  printLibgccFileName := ⟨false, false, ""⟩
  printFileNameGccEh := ⟨false, false, ""⟩

/-- C5 counterexample: with the build artifact already present and the
candidate list exhausted (every probe fails), the orchestration does NOT
abort — it completes successfully, and the bridge is compiled with the
platform-default compiler (`bridgeCompiler = none`), i.e. it is silently
degraded, contradicting the claim's unconditional "aborts fatally". -/
theorem orchestration_silent_default_compiler_cex :
    detect_homebrew_gcc degradedWorld.brewProbe = none ∧
    (macOrchestration degradedWorld).isOk = true ∧
    bridgeCompiler degradedWorld = none := by
  refine ⟨by decide, by decide, by decide⟩

/-- DependencySource as the specification's data model describes it. -/
inductive DepSource where
  | envOverride (p : String)
  | systemInstall (p : String)
  | vendored (p : String)
  deriving DecidableEq, Repr

/-- The Dependency Resolver as claim C7 and spec section 4.1 describe it,
for comparison with the code's `agcRoot`: explicit override first, then a
system-install marker file, then the vendored default path. -/
def claimResolver (ov : Option String) (markerExists : Bool)
    (sysPath vendoredPath : String) : DepSource :=
  match ov with
  | some p => .envOverride p
  | none => if markerExists then .systemInstall sysPath else .vendored vendoredPath

/-- A world with no override in which every path exists — in particular any
system-install marker file — yet the code resolves to the vendored default. -/
def markerWorld : World where
  agcDirOverride := none
  manifestDir := "/repo"
  fileExists := fun _ => true
  brewProbe := fun _ => ⟨true, true, "/opt/homebrew/opt/gcc@13"⟩
  gmakeLaunches := true
  makeLaunches := true
  makeSucceeds := true
  aarch64 := true
  printLibgccFileName := ⟨true, true, "/opt/homebrew/opt/gcc@13/lib/gcc/13/libgcc.a"⟩
  printFileNameGccEh := ⟨true, true, "/opt/homebrew/opt/gcc@13/lib/gcc/13/libgcc_eh.a"⟩

/-- A world in which nothing exists on the filesystem (the vendored source
tree is absent) and fetch tooling availability is irrelevant because the
code has no fetch step: the build is attempted anyway and fails as a make
failure, not as a SourceMissingError. -/
def sourceMissingWorld : World where
  agcDirOverride := none
  manifestDir := "/repo"
  fileExists := fun _ => false
  brewProbe := fun _ => ⟨true, true, "/opt/homebrew/opt/gcc@13"⟩
  gmakeLaunches := true
  makeLaunches := true
  makeSucceeds := false
  aarch64 := true
  printLibgccFileName := ⟨false, false, ""⟩
  printFileNameGccEh := ⟨false, false, ""⟩

/-- C7 counterexample: with no override and a filesystem on which every
path (hence any system-install marker file) exists, the resolver described
by the claim returns a system install, but the code resolves to the
vendored default `/repo/agc`; the resolution is identical on a filesystem
where nothing exists (no marker check); and with the vendored source tree
absent the stage proceeds to run make and fails with "AGC build failed" —
there is no fetch step and no SourceMissingError. -/
theorem dependency_resolver_no_marker_no_fetch_cex :
    claimResolver none true "/usr/local/agc" "/repo/agc" =
      DepSource.systemInstall "/usr/local/agc" ∧
    agcRoot markerWorld = "/repo/agc" ∧
    agcRoot sourceMissingWorld = "/repo/agc" ∧
    (nativeBuilderStage sourceMissingWorld).2 = .error "AGC build failed" ∧
    ProcCall.makeRun "gmake" "/repo/agc" (makeEnvOverrides "13" true) ∈
      (nativeBuilderStage sourceMissingWorld).1 := by
  refine ⟨by decide, by decide, by decide, by decide, by decide⟩

/-- C7 (amended): the Dependency Resolver of the code uses the explicit
override path unconditionally when set, and otherwise the vendored default
`CARGO_MANIFEST_DIR/agc`; it consults nothing else — two worlds agreeing on
the override and the manifest directory resolve identically however their
filesystems differ (so there is no system-install marker check), and there
is no fetch step: an absent vendored tree is not detected here. -/
theorem dependency_resolver_override_then_vendored (w w' : World)
    (hov : w.agcDirOverride = w'.agcDirOverride)
    (hman : w.manifestDir = w'.manifestDir) :
    agcRoot w = agcRoot w' ∧
    (∀ p, w.agcDirOverride = some p → agcRoot w = p) ∧
    (w.agcDirOverride = none → agcRoot w = w.manifestDir ++ "/agc") := by
  refine ⟨?_, ?_, ?_⟩
  · unfold agcRoot
    rw [hov, hman]
  · intro p hp
    simp [agcRoot, hp]
  · intro hp
    simp [agcRoot, hp]

/-- `markerWorld` with the opposite filesystem: nothing exists. -/
def markerWorldNoFs : World := { markerWorld with fileExists := fun _ => false }

theorem dependency_resolver_override_then_vendored_witness :
    (markerWorld.agcDirOverride = markerWorldNoFs.agcDirOverride ∧
      markerWorld.manifestDir = markerWorldNoFs.manifestDir) ∧
    (agcRoot markerWorld = agcRoot markerWorldNoFs ∧
      (∀ p, markerWorld.agcDirOverride = some p → agcRoot markerWorld = p) ∧
      (markerWorld.agcDirOverride = none →
        agcRoot markerWorld = markerWorld.manifestDir ++ "/agc")) :=
  ⟨⟨rfl, rfl⟩,
    dependency_resolver_override_then_vendored markerWorld markerWorldNoFs rfl rfl⟩

/-- `sec3Directives` splits as its front followed by the `gcc_s.1` dylib
directive when a toolchain was resolved. -/
theorem sec3Directives_eq_front (w : World) (pfx ver : String)
    (hdet : detect_homebrew_gcc w.brewProbe = some (pfx, ver)) :
    sec3Directives w = sec3Front w pfx ver ++ [.dynamicLib "gcc_s.1"] := by
  simp [sec3Directives, hdet]

/-- Every directive in the front part of section 3 is a force-load or a
search path (never a `dynamicLib` or kind-less `lib` directive). -/
theorem sec3Front_no_dynamic (w : World) (pfx ver : String) :
    ∀ x ∈ sec3Front w pfx ver,
      ¬(x = Directive.dynamicLib "gcc_s.1" ∨ x = Directive.lib "stdc++") := by
  intro x hx hor
  rcases hor with rfl | rfl
  · simp [sec3Front, mem_guarded] at hx
  · simp [sec3Front, mem_guarded] at hx

/-- No directive of macOS section 4 is a force-load of one of the
toolchain's runtime archive paths, provided the bundled zstd static archive
path is not one of those paths. -/
theorem sec4_no_runtime_forceLoad (w : World)
    (hdisj : zstdStaticPath w ∉ runtimeForceLoadPaths w) :
    ∀ x ∈ sec4Directives w,
      ¬(∃ p, x = Directive.forceLoadArchive p ∧ p ∈ runtimeForceLoadPaths w) := by
  intro x hx
  rintro ⟨p, rfl, hp⟩
  simp [sec4Directives, mem_guarded] at hx
  rcases hx with ⟨-, rfl⟩
  exact hdisj hp

/-- C1: in the macOS link plan, every `forceLoadArchive` directive whose
path is one of the alternate toolchain's runtime archive paths (libgcc,
libstdc++.a, libatomic.a, libgcc_eh.a as section 3 computes them) occurs at
a strictly smaller index than every directive for a same-named dynamic
fallback runtime library (the `dylib=gcc_s.1` directive, or a default
`stdc++` library directive), under the disjointness assumption that the
bundled zstd static archive path differs from the runtime archive paths;
and the non-macOS link plan contains no force-load directive at all. -/
theorem linkPlan_forceLoad_before_dynamic_runtime (w : World)
    (hdisj : zstdStaticPath w ∉ runtimeForceLoadPaths w) :
    precedesAll
      (fun d => ∃ p, d = Directive.forceLoadArchive p ∧ p ∈ runtimeForceLoadPaths w)
      (fun d => d = Directive.dynamicLib "gcc_s.1" ∨ d = Directive.lib "stdc++")
      (macLinkDirectives w) ∧
    (∀ d ∈ nonMacLinkDirectives w, ∀ p, d ≠ Directive.forceLoadArchive p) := by
  constructor
  · match hdet : detect_homebrew_gcc w.brewProbe with
    | none =>
      have hsec3 : sec3Directives w = [] := by simp [sec3Directives, hdet]
      have hrt : runtimeForceLoadPaths w = [] := by simp [runtimeForceLoadPaths, hdet]
      apply precedesAll_of_no_P
      rintro x _ ⟨p, _, hp⟩
      rw [hrt] at hp
      exact (List.not_mem_nil p) hp
    | some (pfx, ver) =>
      have hsplit : macLinkDirectives w =
          sec3Front w pfx ver ++
            ([Directive.dynamicLib "gcc_s.1"] ++ sec4Directives w) := by
        rw [macLinkDirectives, sec3Directives_eq_front w pfx ver hdet,
          List.append_assoc]
      rw [hsplit]
      apply precedesAll_append
      · exact sec3Front_no_dynamic w pfx ver
      · intro x hx
        rcases List.mem_append.mp hx with h | h
        · rw [List.mem_singleton.mp h]
          rintro ⟨p, hc, _⟩
          exact Directive.noConfusion hc
        · exact sec4_no_runtime_forceLoad w hdisj x h
  · intro d hd p hc
    subst hc
    simp [nonMacLinkDirectives] at hd

/-- A fully equipped macOS world: everything exists on the filesystem,
Homebrew GCC 13 is available, and the toolchain reports ordinary paths for
its runtime archives (so force-load archives are selected). -/
def macFullWorld : World where
  agcDirOverride := none
  manifestDir := "/repo"
  fileExists := fun _ => true
  brewProbe := fun v =>
    if v = "13" then ⟨true, true, "/opt/homebrew/opt/gcc@13"⟩
    else ⟨true, false, ""⟩
  gmakeLaunches := true
  makeLaunches := true
  makeSucceeds := true
  aarch64 := true
  printLibgccFileName := ⟨true, true, "/opt/homebrew/opt/gcc@13/lib/gcc/13/libgcc.a"⟩
  printFileNameGccEh := ⟨true, true, "/opt/homebrew/opt/gcc@13/lib/gcc/13/libgcc_eh.a"⟩

theorem linkPlan_forceLoad_before_dynamic_runtime_witness :
    (zstdStaticPath macFullWorld ∉ runtimeForceLoadPaths macFullWorld) ∧
    (precedesAll
      (fun d => ∃ p, d = Directive.forceLoadArchive p ∧
        p ∈ runtimeForceLoadPaths macFullWorld)
      (fun d => d = Directive.dynamicLib "gcc_s.1" ∨ d = Directive.lib "stdc++")
      (macLinkDirectives macFullWorld) ∧
    (∀ d ∈ nonMacLinkDirectives macFullWorld, ∀ p,
      d ≠ Directive.forceLoadArchive p)) :=
  ⟨by decide, linkPlan_forceLoad_before_dynamic_runtime macFullWorld (by decide)⟩

/-- Every archive the macOS link plan force-loads is a path that exists on
the filesystem: each `forceLoadArchive` directive of sections 3 and 4 is
guarded by an existence check on the very path it loads. -/
theorem forceLoad_mem_exists (w : World) (pfx ver : String)
    (hdet : detect_homebrew_gcc w.brewProbe = some (pfx, ver)) (q : String)
    (hq : Directive.forceLoadArchive q ∈ macLinkDirectives w) :
    w.fileExists q = true := by
  rw [macLinkDirectives, sec3Directives_eq_front w pfx ver hdet] at hq
  simp [sec3Front, sec4Directives, mem_guarded] at hq
  rcases hq with ⟨⟨-, h⟩, rfl⟩ | ⟨h, rfl⟩ | ⟨h, rfl⟩ | ⟨⟨-, -, h, -⟩, rfl⟩ | ⟨h, rfl⟩ <;>
    exact h

/-- C6: if a toolchain was resolved but the toolchain-reported static
libgcc archive path does not exist on the filesystem, the synthesized macOS
link plan omits the force-load directive for that archive while still
containing the directive for the dynamically-linked runtime library
`gcc_s.1` and the search-path hints for the toolchain and common system
install locations. -/
theorem linkPlan_dynamic_fallback (w : World) (pfx ver : String)
    (hdet : detect_homebrew_gcc w.brewProbe = some (pfx, ver))
    (_hlaunched : w.printLibgccFileName.launched = true)
    (hmiss : w.fileExists (libgccReported w) = false) :
    Directive.forceLoadArchive (libgccReported w) ∉ macLinkDirectives w ∧
    Directive.dynamicLib "gcc_s.1" ∈ macLinkDirectives w ∧
    Directive.searchPath "/opt/homebrew/lib" ∈ macLinkDirectives w ∧
    Directive.searchPath "/usr/local/lib" ∈ macLinkDirectives w ∧
    Directive.searchPath (pfx ++ "/lib") ∈ macLinkDirectives w := by
  refine ⟨?_, ?_, ?_, ?_, ?_⟩
  · intro hmem
    have hex := forceLoad_mem_exists w pfx ver hdet _ hmem
    rw [hmiss] at hex
    exact Bool.false_ne_true hex
  · rw [macLinkDirectives, sec3Directives_eq_front w pfx ver hdet]
    simp
  · simp [macLinkDirectives, sec4Directives]
  · simp [macLinkDirectives, sec4Directives]
  · rw [macLinkDirectives, sec3Directives_eq_front w pfx ver hdet]
    simp [sec3Front]

/-- A macOS world in which Homebrew GCC 13 is found but the
toolchain-reported static libgcc archive is absent from the filesystem
(every other path exists). -/
def fallbackWorld : World where
  agcDirOverride := none
  manifestDir := "/repo"
  fileExists := fun p => !(p == "/opt/homebrew/opt/gcc@13/lib/gcc/13/libgcc.a")
  brewProbe := fun v =>
    if v = "13" then ⟨true, true, "/opt/homebrew/opt/gcc@13"⟩
    else ⟨true, false, ""⟩
  gmakeLaunches := true
  makeLaunches := true
  makeSucceeds := true
  aarch64 := false
  printLibgccFileName := ⟨true, true, "/opt/homebrew/opt/gcc@13/lib/gcc/13/libgcc.a"⟩
  printFileNameGccEh := ⟨true, true, "libgcc_eh.a"⟩

theorem linkPlan_dynamic_fallback_witness :
    (detect_homebrew_gcc fallbackWorld.brewProbe =
        some ("/opt/homebrew/opt/gcc@13", "13") ∧
      fallbackWorld.printLibgccFileName.launched = true ∧
      fallbackWorld.fileExists (libgccReported fallbackWorld) = false) ∧
    (Directive.forceLoadArchive (libgccReported fallbackWorld) ∉
        macLinkDirectives fallbackWorld ∧
      Directive.dynamicLib "gcc_s.1" ∈ macLinkDirectives fallbackWorld ∧
      Directive.searchPath "/opt/homebrew/lib" ∈ macLinkDirectives fallbackWorld ∧
      Directive.searchPath "/usr/local/lib" ∈ macLinkDirectives fallbackWorld ∧
      Directive.searchPath ("/opt/homebrew/opt/gcc@13" ++ "/lib") ∈
        macLinkDirectives fallbackWorld) :=
  ⟨⟨by decide, by decide, by decide⟩,
    linkPlan_dynamic_fallback fallbackWorld "/opt/homebrew/opt/gcc@13" "13"
      (by decide) (by decide) (by decide)⟩

/-- The `i64` → `i32` conversion Rust's `as` operator performs: truncate
to the low 32 bits and reinterpret as two's complement. -/
def wrap32 (n : Int) : Int := (n + 2147483648) % 4294967296 - 2147483648

theorem wrap32_eq_self {n : Int} (h0 : 0 ≤ n) (h1 : n < 2147483648) :
    wrap32 n = n := by
  unfold wrap32
  rw [Int.emod_eq_of_lt (by omega) (by omega)]
  omega

/-- The FFI surface of the AGC decompressor reached by
`AGCFile::get_full_contig`, as an uninterpreted oracle: `contigLength`
models `get_contig_length` (an `i64` value), and `contigSeq` models
`AGCFile::get_contig_sequence` (that is, `ffi::get_contig_string` with its
error already mapped to a `String` by `map_err`), whose `start` and `end`
arguments are `i32` values. -/
structure ContigOracle where
  contigLength : String → String → Int
  contigSeq : String → String → Int → Int → Except String String

/-- `AGCFile::get_full_contig` (src/lib.rs lines 89-101): look up the
contig length; if it is ≤ 0 return the not-found error without touching
sequence extraction; otherwise extract the range from `0` to
`(length - 1) as i32`. -/
def get_full_contig (o : ContigOracle) (sample_name contig_name : String) :
    Except String String :=
  let length := o.contigLength sample_name contig_name
  if length ≤ 0 then
    .error ("Contig " ++ contig_name ++ "@" ++ sample_name ++
      " not found or has zero length")
  else
    o.contigSeq sample_name contig_name 0 (wrap32 (length - 1))

/-- An oracle whose contig length exceeds the `i32` range and whose
sequence extraction reports back the sign of the `end` argument it
received. -/
def hugeContigOracle : ContigOracle where
  contigLength := fun _ _ => 2147483649
  contigSeq := fun _ _ _ e => if 0 ≤ e then .ok "nonneg-end" else .ok "neg-end"

/-- C9 counterexample: on an oracle reporting length `2^31 + 1` (a positive
`i64`), `get_full_contig` does not return the result of
`get_contig_sequence` for the range `0` to `length - 1`: the `as i32` cast
wraps `length - 1 = 2^31` to `-2^31`, so the call receives a negative end
coordinate instead of `2147483648`. -/
theorem get_full_contig_wrap_cex :
    hugeContigOracle.contigLength "sample" "contig" = 2147483649 ∧
    (0 : Int) < 2147483649 ∧
    get_full_contig hugeContigOracle "sample" "contig" = .ok "neg-end" ∧
    hugeContigOracle.contigSeq "sample" "contig" 0
        (hugeContigOracle.contigLength "sample" "contig" - 1) = .ok "nonneg-end" ∧
    get_full_contig hugeContigOracle "sample" "contig" ≠
      hugeContigOracle.contigSeq "sample" "contig" 0
        (hugeContigOracle.contigLength "sample" "contig" - 1) := by
  refine ⟨by decide, by decide, by decide, by decide, by decide⟩

/-- C9 (amended): when the reported length is ≤ 0, `get_full_contig`
returns the not-found error without invoking sequence extraction (its
result is unchanged under any replacement of the extraction oracle with the
same length oracle); when the length is positive it returns exactly
`get_contig_sequence` for start `0` and end `(length - 1) as i32`, which
coincides with `length - 1` whenever `length ≤ 2^31`. -/
theorem get_full_contig_spec (o o' : ContigOracle) (s c : String)
    (hlen : o.contigLength = o'.contigLength) :
    (o.contigLength s c ≤ 0 →
      get_full_contig o s c =
        .error ("Contig " ++ c ++ "@" ++ s ++ " not found or has zero length") ∧
      get_full_contig o s c = get_full_contig o' s c) ∧
    (0 < o.contigLength s c →
      get_full_contig o s c = o.contigSeq s c 0 (wrap32 (o.contigLength s c - 1))) ∧
    (0 < o.contigLength s c → o.contigLength s c ≤ 2147483648 →
      get_full_contig o s c = o.contigSeq s c 0 (o.contigLength s c - 1)) := by
  refine ⟨?_, ?_, ?_⟩
  · intro h
    have h' : o'.contigLength s c ≤ 0 := by rw [← hlen]; exact h
    constructor
    · simp [get_full_contig, h]
    · simp [get_full_contig, h, h', hlen]
  · intro h
    simp [get_full_contig, not_le.mpr h]
  · intro h1 h2
    simp only [get_full_contig, if_neg (not_le.mpr h1)]
    rw [wrap32_eq_self (by omega) (by omega)]

/-- A small oracle with every contig of length 5. -/
def smallOracleA : ContigOracle where
  contigLength := fun _ _ => 5
  contigSeq := fun _ _ _ _ => .ok "ACGTA"

/-- `smallOracleA` with the same length oracle but a different extraction
oracle. -/
def smallOracleB : ContigOracle where
  contigLength := fun _ _ => 5
  contigSeq := fun _ _ _ _ => .ok "TTTTT"

theorem get_full_contig_spec_witness :
    smallOracleA.contigLength = smallOracleB.contigLength ∧
    ((smallOracleA.contigLength "s" "c" ≤ 0 →
      get_full_contig smallOracleA "s" "c" =
        .error ("Contig " ++ "c" ++ "@" ++ "s" ++ " not found or has zero length") ∧
      get_full_contig smallOracleA "s" "c" = get_full_contig smallOracleB "s" "c") ∧
    (0 < smallOracleA.contigLength "s" "c" →
      get_full_contig smallOracleA "s" "c" =
        smallOracleA.contigSeq "s" "c" 0
          (wrap32 (smallOracleA.contigLength "s" "c" - 1))) ∧
    (0 < smallOracleA.contigLength "s" "c" →
      smallOracleA.contigLength "s" "c" ≤ 2147483648 →
      get_full_contig smallOracleA "s" "c" =
        smallOracleA.contigSeq "s" "c" 0 (smallOracleA.contigLength "s" "c" - 1))) :=
  ⟨rfl, get_full_contig_spec smallOracleA smallOracleB "s" "c" rfl⟩

/-- The `&str`-level FFI open operation (`ffi::open_archive` applied to the
pinned decompressor) as an uninterpreted oracle. -/
structure ArchiveFfi where
  openArchive : String → Bool → Bool

/-- A Rust `Path` as observed by `AGCFile::open`, whose only use of the
path value is `path.as_ref().to_str()`: either its byte sequence is valid
UTF-8, decoding to a string `s`, or it is not. -/
inductive OsPath where
  | utf8 (s : String)
  | invalid
  deriving DecidableEq, Repr

/-- Rust's `Path::to_str`: `some` of the decoded string exactly when the
path's bytes are valid UTF-8. -/
def pathToStr : OsPath → Option String
  | .utf8 s => some s
  | .invalid => none

/-- `AGCFile::open` (src/lib.rs lines 59-62): convert the path with
`to_str()`, `unwrap()` the result (modelled as an `Except.error` carrying
the standard unwrap panic message when the conversion yields `None`), and
pass the resulting string together with the prefetch flag to
`ffi::open_archive`. -/
def AGCFile_open (f : ArchiveFfi) (path : OsPath) (prefetch : Bool) :
    Except String Bool :=
  match pathToStr path with
  | none => .error "called `Option::unwrap()` on a `None` value"
  | some s => .ok (f.openArchive s prefetch)

/-- C10: `AGCFile::open` panics exactly when `to_str` fails, i.e. when the
path is not valid UTF-8; for every valid UTF-8 path the panic branch is
unreachable and the exact decoded string of the path is what gets passed,
unchanged, to the underlying `open_archive` call along with the prefetch
flag. -/
theorem agcfile_open_utf8 (f : ArchiveFfi) (path : OsPath) (prefetch : Bool) :
    (pathToStr path = none →
      AGCFile_open f path prefetch =
        .error "called `Option::unwrap()` on a `None` value") ∧
    (∀ s, pathToStr path = some s →
      AGCFile_open f path prefetch = .ok (f.openArchive s prefetch)) := by
  constructor
  · intro h
    simp [AGCFile_open, h]
  · intro s h
    simp [AGCFile_open, h]

/-- A concrete archive-open oracle accepting exactly one path string. -/
def oneArchive : ArchiveFfi where
  openArchive := fun s _ => s == "/data/ref.agc"

theorem agcfile_open_utf8_witness :
    (AGCFile_open oneArchive OsPath.invalid true =
      .error "called `Option::unwrap()` on a `None` value") ∧
    (AGCFile_open oneArchive (OsPath.utf8 "/data/ref.agc") true =
      .ok (oneArchive.openArchive "/data/ref.agc" true)) :=
  ⟨(agcfile_open_utf8 oneArchive OsPath.invalid true).1 rfl,
    (agcfile_open_utf8 oneArchive (OsPath.utf8 "/data/ref.agc") true).2
      "/data/ref.agc" rfl⟩

end AgcRs
